import Mathlib

/-!
Verification development for the payment reconciliation engine of the
deden-monad repository.

The definitions below are a shallow embedding of the TypeScript sources:

* `lib/verification.ts` (`checkTransactionUsed`, `verifyPayment`,
  `updateBookingStatus`),
* `app/api/payments/submit-payment/route.ts` (the `POST` handler, exposed as
  `submitPayment`),
* `lib/config.ts` (`chainConfig`, `treasuryAddress`),
* `lib/web3-client.ts` (`getPublicClient`, modelled by `hasPublicClient`).

Modelling conventions:

* The Prisma database is a list of booking records plus an append-only
  activity log.  `db.booking.findUnique({ where: { bookingId } })` becomes
  `findBooking`, and `db.booking.update({ where: { bookingId }, data })`
  becomes `updateBooking`, which patches every record whose `bookingId`
  matches (the sources only ever update records they have just read, so the
  Prisma record-not-found exception never fires on the modelled paths).
* JavaScript numbers holding token amounts are modelled as exact rationals;
  `parseUnits(amount.toString(), decimals)` becomes multiplication by
  `10 ^ decimals`.  The numeric value denoted by a log's hex `data` field is
  modelled directly as a natural number.
* JavaScript truthiness on the fields the code tests with `!x` or `x || y`
  is modelled explicitly (`strTruthy`, `numTruthy`, `natTruthy`, `jsOr`):
  absent values and the empty string / zero are falsy.
* `async`/`await`, sleeping and wall-clock time are outside the embedding;
  the retry delay is threaded as an (otherwise inert) parameter and clock
  reads (`new Date()`) are an explicit `now` argument.
* Thrown exceptions inside the verification loop are values of the
  `.thrown` constructor; the `catch` handler of the loop processes them
  exactly as the source does.
-/

namespace DedenMonad

/-- Booking lifecycle statuses, from the Prisma `BookingStatus` enum. -/
inductive BookingStatus where
  | WAITLISTED
  | PENDING
  | RESERVED
  | CONFIRMED
  | CANCELLED
  | EXPIRED
  | FAILED
  deriving DecidableEq

/-- Which payment obligation a verification call is resolving. -/
inductive Phase where
  | reservation
  | remaining
  | full
  deriving DecidableEq

/-- A booking record, with the fields read or written by the payment
submission handler and the verification engine. -/
structure Booking where
  bookingId : String
  status : BookingStatus
  requiresReservation : Bool
  paymentToken : Option String
  paymentAmount : Option ℚ
  txHash : Option String
  chainId : Option Nat
  reservationAmount : Option ℚ
  reservationToken : Option String
  reservationTxHash : Option String
  reservationPaid : Bool
  reservationPaidAt : Option Nat
  reservationChainId : Option Nat
  remainingAmount : Option ℚ
  remainingToken : Option String
  remainingTxHash : Option String
  remainingPaid : Bool
  remainingPaidAt : Option Nat
  remainingChainId : Option Nat
  confirmedAt : Option Nat
  totalPaid : Option ℚ
  blockNumber : Option Nat
  senderAddress : Option String
  receiverAddress : Option String
  gasUsed : Option String
  gasFeeUSD : Option ℚ
  userEmail : Option String
  hasStay : Bool
  deriving DecidableEq

/-- An append-only activity-log record (`db.activityLog.create`). -/
structure ActivityEntry where
  bookingId : String
  action : String
  details : String
  deriving DecidableEq

/-- The persistent store: bookings plus the activity log. -/
structure DB where
  bookings : List Booking
  activityLog : List ActivityEntry
  deriving DecidableEq

/-- `db.booking.findUnique({ where: { bookingId } })`. -/
def findBooking (db : DB) (bookingId : String) : Option Booking :=
  db.bookings.find? (fun b => b.bookingId == bookingId)

/-- `db.booking.update({ where: { bookingId }, data })`: patches the records
whose `bookingId` matches.  The `where` clause names only `bookingId`; there
is no condition on any other field of the record. -/
def updateBooking (db : DB) (bookingId : String) (f : Booking → Booking) : DB :=
  { db with bookings := db.bookings.map (fun b => if b.bookingId == bookingId then f b else b) }

/-- `db.activityLog.create`. -/
def appendLog (db : DB) (bookingId action details : String) : DB :=
  { db with activityLog := db.activityLog ++ [⟨bookingId, action, details⟩] }

/-- JavaScript truthiness of an optional string: absent and `""` are falsy. -/
def strTruthy : Option String → Bool
  | some s => !s.isEmpty
  | none => false

/-- JavaScript truthiness of an optional number: absent and `0` are falsy. -/
def numTruthy : Option ℚ → Bool
  | some q => q != 0
  | none => false

/-- JavaScript truthiness of an optional integer (the `chainId` field). -/
def natTruthy : Option Nat → Bool
  | some n => n != 0
  | none => false

/-- ASCII lowercasing of one character.  The strings the sources lowercase
are hexadecimal addresses, so ASCII case folding coincides with JavaScript's
`toLowerCase()` on them. -/
def lowerChar (c : Char) : Char :=
  if ('A' ≤ c) && (c ≤ 'Z') then Char.ofNat (c.toNat + 32) else c

/-- `s.toLowerCase()` on the ASCII strings the sources compare. -/
def asciiLower (s : String) : String :=
  String.mk (s.data.map lowerChar)

/-- `parseUnits(amount.toString(), decimals)`: the amount scaled by
`10 ^ decimals`.  Written with `mkRat` on the numerator and denominator so
that it evaluates by kernel reduction; `parseUnits_eq` below identifies it
with multiplication by `10 ^ decimals`. -/
def parseUnits (amount : ℚ) (decimals : Nat) : ℚ :=
  mkRat (amount.num * ((10 ^ decimals : Nat) : Int)) amount.den

/-- Rational addition written with `mkRat` (kernel-reducible); `ratAdd_eq`
identifies it with `+`. -/
def ratAdd (a b : ℚ) : ℚ :=
  mkRat (a.num * (b.den : Int) + b.num * (a.den : Int)) (a.den * b.den)

/-- Rational multiplication written with `mkRat` (kernel-reducible);
`ratMul_eq` identifies it with `*`. -/
def ratMul (a b : ℚ) : ℚ :=
  mkRat (a.num * b.num) (a.den * b.den)

/-- The JavaScript string fallback `a || d`: `a` when truthy, else `d`. -/
def jsOr (a : Option String) (d : String) : String :=
  match a with
  | some s => if s.isEmpty then d else s
  | none => d

/-- `checkTransactionUsed` from `lib/verification.ts`: a transaction hash is
consumed when some booking holds it as its confirmed full-payment hash, as a
paid reservation hash, or as a paid remaining hash. -/
def txUsedBy (txHash : String) (b : Booking) : Bool :=
  (b.txHash == some txHash && b.status == BookingStatus.CONFIRMED)
    || (b.reservationTxHash == some txHash && b.reservationPaid)
    || (b.remainingTxHash == some txHash && b.remainingPaid)

/-- `checkTransactionUsed(txHash)`: `findFirst` over the three-way `OR`. -/
def checkTransactionUsed (db : DB) (txHash : String) : Bool :=
  db.bookings.any (txUsedBy txHash)

/-- Per-token configuration from `lib/config.ts`. -/
structure TokenInfo where
  address : String
  decimals : Nat
  symbol : String
  deriving DecidableEq

/-- Per-chain configuration from `lib/config.ts`. -/
structure ChainCfg where
  name : String
  chainId : Nat
  nativeSymbol : String
  tokens : String → Option TokenInfo

/-- `treasuryAddress` from `lib/config.ts`. -/
def treasuryAddress : String := "0x8895691124df317aBa77549843f257F61a7C911a"

/-- The Monad Testnet token table from `lib/config.ts`. -/
def monadTestnetTokens : String → Option TokenInfo
  | "USDC" => some ⟨"0xf817257fed379853cDe0fa4F97AB987181B1E5Ea", 6, "USDC"⟩
  | "USDT" => some ⟨"0x88b8E2161DEDC77EF4ab7585569D2415a1C1055D", 6, "USDT"⟩
  | _ => none

/-- `chainConfig` from `lib/config.ts`: Monad Testnet (10143) only. -/
def chainConfig : Nat → Option ChainCfg
  | 10143 => some ⟨"Monad Testnet", 10143, "MON", monadTestnetTokens⟩
  | _ => none

/-- `getPublicClient` from `lib/web3-client.ts` returns a client exactly for
the Monad Testnet chain id; every other chain id yields `null`. -/
def hasPublicClient (chainId : Nat) : Bool := chainId == 10143

/-- One event log of a transaction receipt.  `data` is the unsigned integer
denoted by the log's hex data field (`BigInt(log.data)`). -/
structure TxLog where
  address : String
  topics : List String
  data : Nat
  deriving DecidableEq

/-- A transaction receipt as consumed by the verification engine. -/
structure Receipt where
  status : String
  blockNumber : Nat
  gasUsed : Nat
  logs : List TxLog
  deriving DecidableEq

/-- The fields of `publicClient.getTransaction` the engine reads. -/
structure TxDetails where
  fromAddr : String
  gasPrice : Option Nat
  deriving DecidableEq

/-- The canonical ERC-20 `Transfer` event signature topic. -/
def TRANSFER_TOPIC : String :=
  "0xddf252ad1be2c89b69c2b068fc378daa952ba7f163c4a11628f55a4df523b3ef"

/-- Recipient extraction from the indexed `to` topic:
`` `0x${log.topics[2]?.slice(26)}` ``.  A missing topic interpolates the
string `undefined`, exactly as the template literal does. -/
def decodeToAddress (topics : List String) : String :=
  match topics.get? 2 with
  | some t => "0x" ++ t.drop 26
  | none => "0xundefined"

end DedenMonad

namespace DedenMonad

/-- Terminal reasons a verification run can produce.  Each carries the
source's error string via `reasonMessage`; `thrownError` holds the message of
an exception surfaced by the retry loop's `catch` handler. -/
inductive FailReason where
  | PaymentDetailsNotLocked
  | VerificationTimeout
  | TransactionReverted
  | NoTransferEvent
  | AmountMismatch
  | WrongRecipient
  | thrownError (msg : String)
  deriving DecidableEq

/-- The `details.error` string the source persists for each failure. -/
def reasonMessage : FailReason → String
  | .PaymentDetailsNotLocked => "Payment details not locked"
  | .VerificationTimeout => "Transaction timeout - not mined after retries"
  | .TransactionReverted => "Transaction failed on blockchain"
  | .NoTransferEvent => "No transfer events in transaction"
  | .AmountMismatch => "Payment amount mismatch on blockchain"
  | .WrongRecipient => "Transfer not sent to correct treasury address"
  | .thrownError msg => msg

/-- The overall outcome of a verification run. -/
inductive Outcome where
  | alreadyVerified
  | confirmed (phase : Phase)
  | failed (r : FailReason)
  deriving DecidableEq

/-- A notification dispatched by the engine (`sendReservationConfirmedEmail`
and `sendConfirmationEmail`). -/
inductive EmailEvent where
  | reservationConfirmed (bookingId : String)
  | paymentConfirmed (bookingId : String)
  deriving DecidableEq

/-- Result of the amount-and-token resolution step of `verifyPayment`
(step 2 of the source, lines 124-171). -/
inductive ResolveResult where
  | resolved (phase : Phase) (expectedAmount : Option ℚ) (paymentToken : String)
  | alreadyVerified (phase : Phase)
  | thrown (msg : String)
  deriving DecidableEq

/-- Step 2 of `verifyPayment`: classify the phase from
`requiresReservation`, `reservationPaid` and the `isRemainingPayment` flag,
pick the expected amount and token (with the source's `||` fallbacks), and
short-circuit or throw exactly where the source does. -/
def resolveExpected (booking : Booking) (isRemainingPayment : Bool) : ResolveResult :=
  let isReservationPayment :=
    booking.requiresReservation && !booking.reservationPaid && !isRemainingPayment
  if isReservationPayment then
    let expectedAmount := booking.reservationAmount
    let paymentToken := jsOr booking.reservationToken (jsOr booking.paymentToken ("USDC"))
    if booking.status == BookingStatus.RESERVED || booking.reservationPaid then
      .alreadyVerified .reservation
    else
      .resolved .reservation expectedAmount paymentToken
  else if isRemainingPayment then
    let expectedAmount := booking.remainingAmount
    let paymentToken := jsOr booking.remainingToken (jsOr booking.paymentToken ("USDC"))
    if !booking.reservationPaid then
      .thrown ("Cannot verify remaining payment - reservation not paid yet")
    else if booking.status == BookingStatus.CONFIRMED || booking.remainingPaid then
      .alreadyVerified .remaining
    else
      .resolved .remaining expectedAmount paymentToken
  else
    let expectedAmount := booking.paymentAmount
    let paymentToken := jsOr booking.paymentToken ("USDC")
    if booking.status == BookingStatus.CONFIRMED then
      .alreadyVerified .full
    else
      .resolved .full expectedAmount paymentToken

/-- The Amount and Token Resolver as the (amended) specification words it:
three rules in priority order, first match wins; rule 1 yields the
reservation amount and the reservation token falling back to the booking's
payment token and then to USDC; rule 2 requires `reservationPaid` (yielding
nothing otherwise) and yields the remaining amount and the remaining token
with the same fallback chain; rule 3 yields the payment amount and the
payment token falling back to USDC. -/
def resolverSpec (booking : Booking) (isRemainingPayment : Bool) :
    Option (Phase × Option ℚ × String) :=
  if booking.requiresReservation && !booking.reservationPaid && !isRemainingPayment then
    some (.reservation, booking.reservationAmount,
      jsOr booking.reservationToken (jsOr booking.paymentToken ("USDC")))
  else if isRemainingPayment then
    if booking.reservationPaid then
      some (.remaining, booking.remainingAmount,
        jsOr booking.remainingToken (jsOr booking.paymentToken ("USDC")))
    else none
  else
    some (.full, booking.paymentAmount, jsOr booking.paymentToken ("USDC"))

/-- `updateBookingStatus` from `lib/verification.ts`: write the given status
(keyed only by `bookingId`, unconditionally), then re-read the record and
append a `payment_<status>` activity entry carrying the error details. -/
def statusLower : BookingStatus → String
  | .WAITLISTED => "waitlisted"
  | .PENDING => "pending"
  | .RESERVED => "reserved"
  | .CONFIRMED => "confirmed"
  | .CANCELLED => "cancelled"
  | .EXPIRED => "expired"
  | .FAILED => "failed"

/-- `updateBookingStatus(bookingId, status, details)`. -/
def updateBookingStatus (db : DB) (bookingId : String) (status : BookingStatus)
    (errDetails : String) : DB :=
  match findBooking (updateBooking db bookingId (fun b => { b with status := status }))
      bookingId with
  | some _ =>
    appendLog (updateBooking db bookingId (fun b => { b with status := status }))
      bookingId ("payment_" ++ statusLower status) errDetails
  | none => updateBooking db bookingId (fun b => { b with status := status })

/-- The token-contract plus Transfer-signature filter of step 8
(lines 263-267 of the source). -/
def transferLogFilter (logs : List TxLog) (tokenAddress : String) : List TxLog :=
  logs.filter (fun l =>
    (asciiLower l.address == asciiLower tokenAddress) && (l.topics.get? 0 == some TRANSFER_TOPIC))

/-- Step 9's scan (lines 287-552): the first filtered log whose decoded
recipient equals the treasury address decides the outcome. -/
def selectTreasuryLog (logs : List TxLog) (tokenAddress : String) : Option TxLog :=
  (transferLogFilter logs tokenAddress).find?
    (fun l => asciiLower (decodeToAddress l.topics) == asciiLower treasuryAddress)

/-- Result of the transfer-log matching steps 8-9 of the source. -/
inductive MatchResult where
  | noTransferEvent
  | wrongRecipient
  | amountMismatch (found : Nat)
  | matched (log : TxLog)
  deriving DecidableEq

/-- Steps 8-9 of `verifyPayment`: filter the receipt logs by token contract
and Transfer signature, then judge the first log addressed to the treasury
by exact base-unit equality. -/
def matchTransferLog (logs : List TxLog) (tokenAddress : String)
    (expectedBaseUnits : ℚ) : MatchResult :=
  if (transferLogFilter logs tokenAddress).isEmpty then
    .noTransferEvent
  else
    match selectTreasuryLog logs tokenAddress with
    | none => .wrongRecipient
    | some l =>
      if (l.data : ℚ) = expectedBaseUnits then .matched l else .amountMismatch l.data

end DedenMonad

namespace DedenMonad

/-- Result of a single iteration of the `while` loop of `verifyPayment`:
either the iteration `return`ed (with the database and notifications it
produced), or the receipt was absent (the retry path), or an exception was
thrown (handled by the loop's `catch`). -/
inductive AttemptResult where
  | done (outcome : Outcome) (db : DB) (emails : List EmailEvent)
  | retryNotFound
  | thrown (msg : String)
  deriving DecidableEq

/-- The success commit of `verifyPayment` (lines 321-549): gas accounting,
the phase-specific booking update, the activity entry, and the notification
dispatch guarded by `booking.user?.email && booking.stay`.  The native token
price is `0` on both arms of the source's conditional, so `gasFeeUSD` is the
product with zero. -/
def commitSuccess (db : DB) (booking : Booking) (bookingId txHash : String)
    (chainId : Nat) (phase : Phase) (expectedAmount : ℚ) (paymentToken : String)
    (receipt : Receipt) (tx : TxDetails) (now : Nat) : DB × List EmailEvent :=
  let gasUsedStr := toString receipt.gasUsed
  let gasPrice := tx.gasPrice.getD 0
  let gasFeeWei := receipt.gasUsed * gasPrice
  let gasFeeNative : ℚ := mkRat (gasFeeWei : Int) (10 ^ 18 : Nat)
  let nativePriceUsd : ℚ := 0
  let gasFeeUSD : ℚ := ratMul gasFeeNative nativePriceUsd
  let notify : Bool := strTruthy booking.userEmail && booking.hasStay
  match phase with
  | .reservation =>
    let db1 := updateBooking db bookingId (fun b =>
      { b with
        status := BookingStatus.RESERVED
        reservationPaid := true
        reservationTxHash := some txHash
        reservationPaidAt := some now
        reservationChainId := some chainId
        reservationToken := some paymentToken
        blockNumber := some receipt.blockNumber
        senderAddress := some tx.fromAddr
        receiverAddress := some treasuryAddress
        gasUsed := some gasUsedStr
        gasFeeUSD := some gasFeeUSD })
    let db2 := appendLog db1 bookingId ("reservation_paid") ("")
    (db2, if notify then [EmailEvent.reservationConfirmed bookingId] else [])
  | .remaining =>
    let db1 := updateBooking db bookingId (fun b =>
      { b with
        status := BookingStatus.CONFIRMED
        remainingPaid := true
        remainingTxHash := some txHash
        remainingPaidAt := some now
        remainingChainId := some chainId
        remainingToken := some paymentToken
        confirmedAt := some now
        totalPaid := some (ratAdd (booking.reservationAmount.getD 0) expectedAmount) })
    let db2 := appendLog db1 bookingId ("remaining_payment_confirmed") ("")
    (db2, if notify then [EmailEvent.paymentConfirmed bookingId] else [])
  | .full =>
    let db1 := updateBooking db bookingId (fun b =>
      { b with
        status := BookingStatus.CONFIRMED
        confirmedAt := some now
        blockNumber := some receipt.blockNumber
        senderAddress := some tx.fromAddr
        receiverAddress := some treasuryAddress
        gasUsed := some gasUsedStr
        gasFeeUSD := some gasFeeUSD
        totalPaid := booking.paymentAmount })
    let db2 := appendLog db1 bookingId ("payment_confirmed") ("")
    (db2, if notify then [EmailEvent.paymentConfirmed bookingId] else [])

/-- The part of a loop iteration after the amount-and-token resolution:
the locked-details check (step 3), the client lookup (step 4), the receipt
fetch (step 5), the execution-status check (step 6), the chain and token
configuration lookups (step 7), and the transfer-log matching plus commit
(steps 8-9). -/
def afterResolve (db : DB) (bookingId txHash : String) (chainId : Nat)
    (booking : Booking) (phase : Phase) (expectedAmount : Option ℚ)
    (paymentToken : String) (receipt? : Option Receipt) (tx : TxDetails)
    (now : Nat) : AttemptResult :=
  if paymentToken.isEmpty || !(numTruthy expectedAmount) then
    .done (.failed .PaymentDetailsNotLocked)
      (updateBookingStatus db bookingId BookingStatus.FAILED
        (reasonMessage .PaymentDetailsNotLocked)) []
  else if !(hasPublicClient chainId) then
    .thrown ("No client configured for chain " ++ toString chainId)
  else
    match receipt? with
    | none => .retryNotFound
    | some receipt =>
      if receipt.status != "success" then
        .done (.failed .TransactionReverted)
          (updateBookingStatus db bookingId BookingStatus.FAILED
            (reasonMessage .TransactionReverted)) []
      else
        match chainConfig chainId with
        | none => .thrown ("Chain " ++ toString chainId ++ " not configured")
        | some chain =>
          match chain.tokens paymentToken with
          | none =>
            .thrown ("Token " ++ paymentToken ++ " not configured for chain "
              ++ toString chainId)
          | some tokenInfo =>
            let expectedBaseUnits : ℚ :=
              parseUnits (expectedAmount.getD 0) tokenInfo.decimals
            match matchTransferLog receipt.logs tokenInfo.address expectedBaseUnits with
            | .noTransferEvent =>
              .done (.failed .NoTransferEvent)
                (updateBookingStatus db bookingId BookingStatus.FAILED
                  (reasonMessage .NoTransferEvent)) []
            | .wrongRecipient =>
              .done (.failed .WrongRecipient)
                (updateBookingStatus db bookingId BookingStatus.FAILED
                  (reasonMessage .WrongRecipient)) []
            | .amountMismatch _ =>
              .done (.failed .AmountMismatch)
                (updateBookingStatus db bookingId BookingStatus.FAILED
                  (reasonMessage .AmountMismatch)) []
            | .matched _ =>
              let (db2, emails) :=
                commitSuccess db booking bookingId txHash chainId phase
                  (expectedAmount.getD 0) paymentToken receipt tx now
              .done (.confirmed phase) db2 emails

/-- One iteration of the `while` loop of `verifyPayment`: read the booking
(step 1), resolve the phase, amount and token with its short-circuits
(step 2), then run the rest of the iteration. -/
def verifyAttempt (db : DB) (bookingId txHash : String) (chainId : Nat)
    (isRemainingPayment : Bool) (receipt? : Option Receipt) (tx : TxDetails)
    (now : Nat) : AttemptResult :=
  match findBooking db bookingId with
  | none => .thrown ("Booking not found")
  | some booking =>
    match resolveExpected booking isRemainingPayment with
    | .thrown msg => .thrown msg
    | .alreadyVerified _ => .done .alreadyVerified db []
    | .resolved phase expectedAmount paymentToken =>
      afterResolve db bookingId txHash chainId booking phase expectedAmount
        paymentToken receipt? tx now

/-- The observable result of a full `verifyPayment` run: the final outcome
(`none` only when `maxRetries = 0` and the loop body never runs), the final
database, the dispatched notifications, and the database as it stands after
each completed loop iteration. -/
structure VerifyResult where
  outcome : Option Outcome
  db : DB
  emails : List EmailEvent
  history : List DB
  deriving DecidableEq

end DedenMonad

namespace DedenMonad

/-- The retry loop of `verifyPayment` (lines 100-580).  `fuel` is
`maxRetries - retryCount`, the number of loop-condition checks left.  On a
missing receipt the counter is incremented and, once it reaches
`maxRetries`, the booking is failed with the timeout message (lines
198-213); on a thrown error the `catch` handler increments the counter and
fails the booking with the error's message once the budget is exhausted
(lines 566-579).  Every other iteration result `return`s. -/
def verifyGo (bookingId txHash : String) (chainId : Nat) (isRemainingPayment : Bool)
    (fetchReceipt : Nat → Option Receipt) (tx : TxDetails) (now : Nat)
    (maxRetries : Nat) : Nat → Nat → DB → VerifyResult
  | 0, _, db => ⟨none, db, [], []⟩
  | fuel + 1, retryCount, db =>
    match verifyAttempt db bookingId txHash chainId isRemainingPayment
        (fetchReceipt retryCount) tx now with
    | .done outcome db1 emails => ⟨some outcome, db1, emails, [db1]⟩
    | .retryNotFound =>
      if retryCount + 1 < maxRetries then
        let r := verifyGo bookingId txHash chainId isRemainingPayment fetchReceipt
          tx now maxRetries fuel (retryCount + 1) db
        ⟨r.outcome, r.db, r.emails, db :: r.history⟩
      else
        let db1 := updateBookingStatus db bookingId BookingStatus.FAILED
          (reasonMessage .VerificationTimeout)
        ⟨some (.failed .VerificationTimeout), db1, [], [db1]⟩
    | .thrown msg =>
      if maxRetries ≤ retryCount + 1 then
        let db1 := updateBookingStatus db bookingId BookingStatus.FAILED msg
        ⟨some (.failed (.thrownError msg)), db1, [], [db1]⟩
      else
        let r := verifyGo bookingId txHash chainId isRemainingPayment fetchReceipt
          tx now maxRetries fuel (retryCount + 1) db
        ⟨r.outcome, r.db, r.emails, db :: r.history⟩

/-- `verifyPayment(bookingId, txHash, chainId, isRemainingPayment,
maxRetries, retryDelayMs)`.  `fetchReceipt` maps each attempt number to the
receipt the chain reader returns on that attempt (`none` for "not found"),
`tx` is the transaction detail used for gas accounting, and `retryDelayMs`
only paces the sleeps in the source, so it is inert here. -/
def verifyPayment (db : DB) (bookingId txHash : String) (chainId : Nat)
    (isRemainingPayment : Bool) (fetchReceipt : Nat → Option Receipt)
    (tx : TxDetails) (now : Nat) (maxRetries : Nat) (retryDelayMs : Nat) :
    VerifyResult :=
  let _ := retryDelayMs
  verifyGo bookingId txHash chainId isRemainingPayment fetchReceipt tx now
    maxRetries maxRetries 0 db

/-- The request body of `POST /api/payments/submit-payment`. -/
structure SubmitRequest where
  bookingId : Option String
  txHash : Option String
  chainId : Option Nat
  paymentToken : Option String
  isRemainingPayment : Bool
  deriving DecidableEq

/-- The response classes of the submission handler. -/
inductive SubmitOutcome where
  | missingFields
  | invalidTxHash
  | txAlreadyUsed
  | bookingNotFound
  | reservationNotPaid
  | statusConflict (current : BookingStatus)
  | remainingAlreadyPaid
  | reservationAlreadyPaid
  | tokenMismatch (expected : String)
  | paymentNotLocked
  | accepted (paymentType : String)
  deriving DecidableEq

/-- The HTTP status code the handler attaches to each response class. -/
def httpStatus : SubmitOutcome → Nat
  | .missingFields => 400
  | .invalidTxHash => 400
  | .txAlreadyUsed => 409
  | .bookingNotFound => 404
  | .reservationNotPaid => 400
  | .statusConflict _ => 409
  | .remainingAlreadyPaid => 409
  | .reservationAlreadyPaid => 409
  | .tokenMismatch _ => 400
  | .paymentNotLocked => 400
  | .accepted _ => 200

/-- The `/^0x[a-fA-F0-9]{64}$/` transaction-hash format check. -/
def isHexChar (c : Char) : Bool :=
  c.isDigit || (('a' ≤ c) && (c ≤ 'f')) || (('A' ≤ c) && (c ≤ 'F'))

/-- `isValidTxHash`: 66 characters, a `0x` head, then 64 hex digits. -/
def isValidTxHash (s : String) : Bool :=
  (s.length == 66) && (s.take 2 == "0x") && (s.drop 2).toList.all isHexChar

/-- The phase-dependent guard block of the submission handler
(lines 85-181 of `route.ts`): `some` is a rejection, `none` lets the
submission proceed to recording. -/
def guardPhase (booking : Booking) (isRemainingPayment : Bool)
    (paymentToken : String) : Option SubmitOutcome :=
  if booking.requiresReservation then
    if isRemainingPayment then
      if !booking.reservationPaid then some .reservationNotPaid
      else if booking.status != BookingStatus.RESERVED then
        some (.statusConflict booking.status)
      else if booking.remainingPaid then some .remainingAlreadyPaid
      else
        match booking.remainingToken with
        | some t => if !t.isEmpty && t != paymentToken then some (.tokenMismatch t) else none
        | none => none
    else
      if booking.status != BookingStatus.PENDING then
        some (.statusConflict booking.status)
      else if booking.reservationPaid then some .reservationAlreadyPaid
      else
        match booking.reservationToken with
        | some t => if !t.isEmpty && t != paymentToken then some (.tokenMismatch t) else none
        | none => none
  else
    if booking.status != BookingStatus.PENDING then
      some (.statusConflict booking.status)
    else if !(strTruthy booking.paymentToken) || !(numTruthy booking.paymentAmount) then
      some .paymentNotLocked
    else none

/-- What the submission handler returns: the response, the database after
the handler, and whether background verification was scheduled.  The
handler itself never touches the chain reader; chain access happens only
inside the scheduled `verifyPayment` task. -/
structure SubmitResult where
  outcome : SubmitOutcome
  db : DB
  verificationScheduled : Bool
  deriving DecidableEq

/-- The `POST` handler of `app/api/payments/submit-payment/route.ts`
(`submitPayment` in the specification's interface): basic validation, hash
format check, idempotency check, booking lookup, the phase guards, then the
immediate recording of the hash and chain id, the activity entry, and the
scheduling of background verification. -/
def submitPayment (db : DB) (req : SubmitRequest) : SubmitResult :=
  if !(strTruthy req.bookingId) || !(strTruthy req.txHash)
      || !(natTruthy req.chainId) || !(strTruthy req.paymentToken) then
    ⟨.missingFields, db, false⟩
  else
    let bid := req.bookingId.getD ("")
    let txh := req.txHash.getD ("")
    let cid := req.chainId.getD 0
    let tok := req.paymentToken.getD ("")
    if !(isValidTxHash txh) then ⟨.invalidTxHash, db, false⟩
    else if checkTransactionUsed db txh then ⟨.txAlreadyUsed, db, false⟩
    else
      match findBooking db bid with
      | none => ⟨.bookingNotFound, db, false⟩
      | some booking =>
        match guardPhase booking req.isRemainingPayment tok with
        | some reject => ⟨reject, db, false⟩
        | none =>
          let db1 := updateBooking db bid (fun b =>
            if req.isRemainingPayment then
              { b with chainId := some cid, remainingTxHash := some txh }
            else if booking.requiresReservation then
              { b with chainId := some cid, reservationTxHash := some txh }
            else
              { b with chainId := some cid, txHash := some txh })
          let action := if req.isRemainingPayment then "remaining_payment_submitted"
            else "payment_submitted"
          let db2 := appendLog db1 bid action ("")
          let ptype := if req.isRemainingPayment then "remaining"
            else if booking.requiresReservation then "reservation" else "full"
          ⟨.accepted ptype, db2, true⟩

end DedenMonad

namespace DedenMonad

/-- A booking record with every optional field absent, used as the base of
the concrete fixtures below. -/
def baseBooking : Booking :=
  { bookingId := ""
    status := BookingStatus.PENDING
    requiresReservation := false
    paymentToken := none
    paymentAmount := none
    txHash := none
    chainId := none
    reservationAmount := none
    reservationToken := none
    reservationTxHash := none
    reservationPaid := false
    reservationPaidAt := none
    reservationChainId := none
    remainingAmount := none
    remainingToken := none
    remainingTxHash := none
    remainingPaid := false
    remainingPaidAt := none
    remainingChainId := none
    confirmedAt := none
    totalPaid := none
    blockNumber := none
    senderAddress := none
    receiverAddress := none
    gasUsed := none
    gasFeeUSD := none
    userEmail := none
    hasStay := false }

/-- A well-formed transaction hash used by the concrete runs. -/
def txA : String :=
  "0xaaaaaaaaaaaaaaaaaaaaaaaaaaaaaaaaaaaaaaaaaaaaaaaaaaaaaaaaaaaaaaaa"

/-- The indexed `to` topic of a transfer addressed to the treasury. -/
def topicToTreasury : String :=
  "0x0000000000000000000000008895691124df317aba77549843f257f61a7c911a"

/-- A USDC `Transfer` log of 30000000 base units (30.00 USDC) addressed to
the treasury. -/
def logTreasury30 : TxLog :=
  { address := "0xf817257fed379853cde0fa4f97ab987181b1e5ea"
    topics := [TRANSFER_TOPIC, "0x0", topicToTreasury]
    data := 30000000 }

/-- A successful receipt carrying exactly `logTreasury30`. -/
def receiptOK : Receipt :=
  { status := "success", blockNumber := 100, gasUsed := 21000, logs := [logTreasury30] }

/-- Transaction details for gas accounting in the concrete runs. -/
def txDet : TxDetails :=
  { fromAddr := "0x1111111111111111111111111111111111111111", gasPrice := some 0 }

end DedenMonad

namespace DedenMonad

theorem parseUnits_eq (q : ℚ) (d : Nat) : parseUnits q d = q * ((10 ^ d : ℕ) : ℚ) := by
  have hd : ((q.den : ℚ)) ≠ 0 := by
    exact_mod_cast q.den_nz
  conv_rhs => rw [← Rat.num_div_den q]
  rw [parseUnits, Rat.mkRat_eq_div]
  push_cast
  field_simp

theorem ratAdd_eq (a b : ℚ) : ratAdd a b = a + b := by
  have ha : ((a.den : ℚ)) ≠ 0 := by exact_mod_cast a.den_nz
  have hb : ((b.den : ℚ)) ≠ 0 := by exact_mod_cast b.den_nz
  conv_rhs => rw [← Rat.num_div_den a, ← Rat.num_div_den b]
  rw [ratAdd, Rat.mkRat_eq_div]
  push_cast
  field_simp

theorem ratMul_eq (a b : ℚ) : ratMul a b = a * b := by
  have ha : ((a.den : ℚ)) ≠ 0 := by exact_mod_cast a.den_nz
  have hb : ((b.den : ℚ)) ≠ 0 := by exact_mod_cast b.den_nz
  conv_rhs => rw [← Rat.num_div_den a, ← Rat.num_div_den b]
  rw [ratMul, Rat.mkRat_eq_div]
  push_cast
  field_simp

theorem find_map_update (l : List Booking) (bid : String) (f : Booking → Booking)
    (hf : ∀ b, (f b).bookingId = b.bookingId) :
    (l.map (fun b => if b.bookingId == bid then f b else b)).find?
        (fun b => b.bookingId == bid)
      = (l.find? (fun b => b.bookingId == bid)).map f := by
  induction l with
  | nil => rfl
  | cons a t ih =>
    cases hab : (a.bookingId == bid) with
    | true =>
      have hfa : ((f a).bookingId == bid) = true := by
        rw [hf]; exact hab
      simp only [List.map_cons, List.find?_cons, hab, if_true, hfa]
      rfl
    | false =>
      have hmap : (if (a.bookingId == bid) = true then f a else a) = a := by
        rw [hab]
        simp
      simp only [List.map_cons, List.find?_cons]
      rw [hmap, hab]
      exact ih

theorem findBooking_updateBooking (db : DB) (bid : String) (f : Booking → Booking)
    (hf : ∀ b, (f b).bookingId = b.bookingId) :
    findBooking (updateBooking db bid f) bid = (findBooking db bid).map f :=
  find_map_update db.bookings bid f hf

theorem updateBookingStatus_spec (db : DB) (bid : String) (st : BookingStatus)
    (msg : String) (b : Booking) (hb : findBooking db bid = some b) :
    findBooking (updateBookingStatus db bid st msg) bid = some { b with status := st } ∧
      (updateBookingStatus db bid st msg).activityLog
        = db.activityLog ++ [⟨bid, "payment_" ++ statusLower st, msg⟩] := by
  have h1 : findBooking (updateBooking db bid (fun x => { x with status := st })) bid
      = some { b with status := st } := by
    have h2 := findBooking_updateBooking db bid (fun x => { x with status := st })
      (fun _ => rfl)
    rw [hb] at h2
    exact h2
  constructor
  · simp only [updateBookingStatus]
    rw [h1]
    exact h1
  · simp only [updateBookingStatus]
    rw [h1]
    rfl

end DedenMonad

namespace DedenMonad

theorem verifyAttempt_resolved (db : DB) (bid txh : String) (cid : Nat) (isRem : Bool)
    (rcpt : Option Receipt) (tx : TxDetails) (now : Nat) (b : Booking)
    (phase : Phase) (amt : Option ℚ) (tok : String)
    (hb : findBooking db bid = some b)
    (hres : resolveExpected b isRem = .resolved phase amt tok) :
    verifyAttempt db bid txh cid isRem rcpt tx now
      = afterResolve db bid txh cid b phase amt tok rcpt tx now := by
  simp only [verifyAttempt, hb, hres]

theorem verifyAttempt_already (db : DB) (bid txh : String) (cid : Nat) (isRem : Bool)
    (rcpt : Option Receipt) (tx : TxDetails) (now : Nat) (b : Booking) (ph : Phase)
    (hb : findBooking db bid = some b)
    (hres : resolveExpected b isRem = .alreadyVerified ph) :
    verifyAttempt db bid txh cid isRem rcpt tx now = .done .alreadyVerified db [] := by
  simp only [verifyAttempt, hb, hres]

theorem afterResolve_notFound (db : DB) (bid txh : String) (cid : Nat) (b : Booking)
    (phase : Phase) (amt : Option ℚ) (tok : String) (tx : TxDetails) (now : Nat)
    (htok : tok.isEmpty = false) (hamt : numTruthy amt = true)
    (hclient : hasPublicClient cid = true) :
    afterResolve db bid txh cid b phase amt tok none tx now = .retryNotFound := by
  simp [afterResolve, htok, hamt, hclient]

theorem afterResolve_noClient (db : DB) (bid txh : String) (cid : Nat) (b : Booking)
    (phase : Phase) (amt : Option ℚ) (tok : String) (rcpt : Option Receipt)
    (tx : TxDetails) (now : Nat)
    (htok : tok.isEmpty = false) (hamt : numTruthy amt = true)
    (hclient : hasPublicClient cid = false) :
    afterResolve db bid txh cid b phase amt tok rcpt tx now
      = .thrown ("No client configured for chain " ++ toString cid) := by
  simp [afterResolve, htok, hamt, hclient]

theorem afterResolve_reverted (db : DB) (bid txh : String) (cid : Nat) (b : Booking)
    (phase : Phase) (amt : Option ℚ) (tok : String) (receipt : Receipt)
    (tx : TxDetails) (now : Nat)
    (htok : tok.isEmpty = false) (hamt : numTruthy amt = true)
    (hclient : hasPublicClient cid = true)
    (hstat : receipt.status ≠ "success") :
    afterResolve db bid txh cid b phase amt tok (some receipt) tx now
      = .done (.failed .TransactionReverted)
          (updateBookingStatus db bid BookingStatus.FAILED
            (reasonMessage .TransactionReverted)) [] := by
  simp [afterResolve, htok, hamt, hclient, bne_iff_ne, hstat]

end DedenMonad

namespace DedenMonad

theorem afterResolve_postConfig (db : DB) (bid txh : String) (cid : Nat) (b : Booking)
    (phase : Phase) (amt : Option ℚ) (tok : String) (receipt : Receipt)
    (tx : TxDetails) (now : Nat) (ch : ChainCfg) (ti : TokenInfo)
    (htok : tok.isEmpty = false) (hamt : numTruthy amt = true)
    (hclient : hasPublicClient cid = true)
    (hstat : receipt.status = "success")
    (hcfg : chainConfig cid = some ch) (hti : ch.tokens tok = some ti) :
    afterResolve db bid txh cid b phase amt tok (some receipt) tx now
      = match matchTransferLog receipt.logs ti.address
            (parseUnits (amt.getD 0) ti.decimals) with
        | .noTransferEvent =>
          .done (.failed .NoTransferEvent)
            (updateBookingStatus db bid BookingStatus.FAILED
              (reasonMessage .NoTransferEvent)) []
        | .wrongRecipient =>
          .done (.failed .WrongRecipient)
            (updateBookingStatus db bid BookingStatus.FAILED
              (reasonMessage .WrongRecipient)) []
        | .amountMismatch _ =>
          .done (.failed .AmountMismatch)
            (updateBookingStatus db bid BookingStatus.FAILED
              (reasonMessage .AmountMismatch)) []
        | .matched _ =>
          .done (.confirmed phase)
            (commitSuccess db b bid txh cid phase (amt.getD 0) tok receipt tx now).1
            (commitSuccess db b bid txh cid phase (amt.getD 0) tok receipt tx now).2 := by
  simp only [afterResolve, htok, hamt, hclient, hstat, hcfg, hti]
  simp

end DedenMonad

namespace DedenMonad

theorem verifyGo_done_first (db : DB) (bid txh : String) (cid : Nat) (isRem : Bool)
    (fetch : Nat → Option Receipt) (tx : TxDetails) (now : Nat)
    (maxRetries delay : Nat) (o : Outcome) (db1 : DB) (es : List EmailEvent)
    (hm : 0 < maxRetries)
    (hatt : verifyAttempt db bid txh cid isRem (fetch 0) tx now = .done o db1 es) :
    verifyPayment db bid txh cid isRem fetch tx now maxRetries delay
      = ⟨some o, db1, es, [db1]⟩ := by
  cases maxRetries with
  | zero => exact absurd hm (by omega)
  | succ n => simp only [verifyPayment, verifyGo, hatt]

theorem verifyGo_all_notFound (bid txh : String) (cid : Nat) (isRem : Bool)
    (fetch : Nat → Option Receipt) (tx : TxDetails) (now : Nat)
    (maxRetries : Nat) (db : DB)
    (hatt : ∀ i, verifyAttempt db bid txh cid isRem (fetch i) tx now = .retryNotFound) :
    ∀ fuel rc, 0 < fuel → rc + fuel = maxRetries →
      verifyGo bid txh cid isRem fetch tx now maxRetries fuel rc db
        = ⟨some (.failed .VerificationTimeout),
            updateBookingStatus db bid BookingStatus.FAILED
              (reasonMessage .VerificationTimeout),
            [],
            List.replicate (fuel - 1) db
              ++ [updateBookingStatus db bid BookingStatus.FAILED
                    (reasonMessage .VerificationTimeout)]⟩ := by
  intro fuel
  induction fuel with
  | zero => intro rc h; exact absurd h (by omega)
  | succ n ih =>
    intro rc _ hsum
    by_cases hn : n = 0
    · subst hn
      have hnot : ¬ (rc + 1 < maxRetries) := by omega
      simp [verifyGo, hatt rc, hnot]
    · have hlt : rc + 1 < maxRetries := by omega
      simp only [verifyGo, hatt, hlt, if_true]
      rw [ih (rc + 1) (by omega) (by omega)]
      have hn1 : n - 1 + 1 = n := Nat.succ_pred_eq_of_pos (Nat.pos_of_ne_zero hn)
      rw [show n + 1 - 1 = n from rfl, ← hn1, List.replicate_succ]
      simp

theorem verifyGo_all_thrown (bid txh : String) (cid : Nat) (isRem : Bool)
    (fetch : Nat → Option Receipt) (tx : TxDetails) (now : Nat)
    (maxRetries : Nat) (db : DB) (msg : String)
    (hatt : ∀ i, verifyAttempt db bid txh cid isRem (fetch i) tx now = .thrown msg) :
    ∀ fuel rc, 0 < fuel → rc + fuel = maxRetries →
      verifyGo bid txh cid isRem fetch tx now maxRetries fuel rc db
        = ⟨some (.failed (.thrownError msg)),
            updateBookingStatus db bid BookingStatus.FAILED msg,
            [],
            List.replicate (fuel - 1) db
              ++ [updateBookingStatus db bid BookingStatus.FAILED msg]⟩ := by
  intro fuel
  induction fuel with
  | zero => intro rc h; exact absurd h (by omega)
  | succ n ih =>
    intro rc _ hsum
    by_cases hn : n = 0
    · subst hn
      have hle : maxRetries ≤ rc + 1 := by omega
      simp [verifyGo, hatt rc, hle]
    · have hnle : ¬ (maxRetries ≤ rc + 1) := by omega
      simp only [verifyGo, hatt, hnle, if_false]
      rw [ih (rc + 1) (by omega) (by omega)]
      have hn1 : n - 1 + 1 = n := Nat.succ_pred_eq_of_pos (Nat.pos_of_ne_zero hn)
      rw [show n + 1 - 1 = n from rfl, ← hn1, List.replicate_succ]
      simp

end DedenMonad

namespace DedenMonad

theorem isValidTxHash_ne_empty (s : String) (h : isValidTxHash s = true) :
    s.isEmpty = false := by
  by_cases he : s.isEmpty = true
  · rw [String.isEmpty_iff] at he
    subst he
    exact absurd h (by decide)
  · simpa using he

/-- Claim C10: on a terminal verification failure the status-update helper
`updateBookingStatus` sets the booking's status to the given value while
changing no other field of the record (the paid flags, the recorded hashes
and the amounts are all carried over), appends one `payment_<status>`
activity entry, and the write is keyed only by `bookingId`: it applies for
every current state of the record, with no expected-pre-state condition on
the update. -/
theorem C10_updateBookingStatus_frame (db : DB) (bid : String) (st : BookingStatus)
    (msg : String) (b : Booking) (hb : findBooking db bid = some b) :
    findBooking (updateBookingStatus db bid st msg) bid = some { b with status := st } ∧
      (updateBookingStatus db bid st msg).activityLog
        = db.activityLog ++ [⟨bid, "payment_" ++ statusLower st, msg⟩] :=
  updateBookingStatus_spec db bid st msg b hb

def bkW : Booking :=
  { baseBooking with
    bookingId := "BW", status := BookingStatus.RESERVED, requiresReservation := true
    reservationPaid := true, reservationTxHash := some txA
    reservationAmount := some 30, remainingAmount := some 70 }

def dbW : DB := ⟨[bkW], []⟩

/-- Witness for C10 at a concrete reservation-paid booking in status
RESERVED, overwritten to FAILED. -/
theorem C10_updateBookingStatus_frame_witness :
    findBooking (updateBookingStatus dbW ("BW") BookingStatus.FAILED ("boom")) ("BW")
        = some { bkW with status := BookingStatus.FAILED } ∧
      (updateBookingStatus dbW ("BW") BookingStatus.FAILED ("boom")).activityLog
        = dbW.activityLog ++ [⟨"BW", "payment_" ++ statusLower BookingStatus.FAILED, "boom"⟩] :=
  C10_updateBookingStatus_frame dbW ("BW") BookingStatus.FAILED ("boom") bkW (by decide)

/-- Claim C8: `checkTransactionUsed(txHash)` returns true exactly when some
booking holds the hash as its full-payment hash with status CONFIRMED, as
its reservation hash with `reservationPaid`, or as its remaining hash with
`remainingPaid`; and when it returns true the submission handler rejects
with the replay response before writing any booking field: the database is
returned untouched and no verification is scheduled. -/
theorem C8_idempotency_guard (db : DB) (h bid tok : String) (cid : Nat) (isRem : Bool) :
    (checkTransactionUsed db h = true ↔
      ∃ b ∈ db.bookings,
        (b.txHash = some h ∧ b.status = BookingStatus.CONFIRMED)
          ∨ (b.reservationTxHash = some h ∧ b.reservationPaid = true)
          ∨ (b.remainingTxHash = some h ∧ b.remainingPaid = true)) ∧
    (bid.isEmpty = false → cid ≠ 0 → tok.isEmpty = false →
      isValidTxHash h = true → checkTransactionUsed db h = true →
      submitPayment db ⟨some bid, some h, some cid, some tok, isRem⟩
        = ⟨.txAlreadyUsed, db, false⟩) := by
  constructor
  · simp [checkTransactionUsed, txUsedBy, List.any_eq_true, Bool.or_eq_true,
      Bool.and_eq_true, beq_iff_eq, or_assoc]
  · intro h1 h2 h3 h4 h5
    have hh : h.isEmpty = false := isValidTxHash_ne_empty h h4
    simp [submitPayment, strTruthy, natTruthy, h1, h2, h3, h4, h5, hh]

def dbC8 : DB :=
  ⟨[{ baseBooking with
      bookingId := "BU", status := BookingStatus.CONFIRMED, txHash := some txA,
      paymentToken := some ("USDC"), paymentAmount := some 30 }], []⟩

/-- Witness for C8: a hash consumed by a confirmed booking makes a fresh
submission for another booking rejected with the database untouched. -/
theorem C8_idempotency_guard_witness :
    submitPayment dbC8 ⟨some ("BU2"), some txA, some 10143, some ("USDC"), false⟩
      = ⟨.txAlreadyUsed, dbC8, false⟩ :=
  (C8_idempotency_guard dbC8 txA ("BU2") ("USDC") 10143 false).2
    (by decide) (by decide) (by decide) (by decide) (by decide)

/-- Claim C7 (amended): the resolver applies the three rules in priority
order with first match winning, where the token of rule 2 is the remaining
token with fallback to the booking's payment token and then to USDC, and the
token of rule 3 is the payment token with fallback to USDC (the source
applies the same fallback chain in all three branches): whenever the
resolver yields an amount and token they are the ones of `resolverSpec`,
whenever it fails the phase-order requirement of rule 2 is violated, and
whenever it short-circuits the classified phase agrees with `resolverSpec`. -/
theorem C7_resolver_rules (b : Booking) (isRem : Bool) :
    (∀ p a t, resolveExpected b isRem = .resolved p a t →
      resolverSpec b isRem = some (p, a, t)) ∧
    (∀ m, resolveExpected b isRem = .thrown m →
      resolverSpec b isRem = none ∧ b.reservationPaid = false ∧ isRem = true) ∧
    (∀ p, resolveExpected b isRem = .alreadyVerified p →
      ∃ a t, resolverSpec b isRem = some (p, a, t)) := by
  refine ⟨?_, ?_, ?_⟩
  · intro p a t hres
    unfold resolveExpected at hres
    unfold resolverSpec
    simp only [Bool.and_eq_true, Bool.not_eq_true', Bool.or_eq_true, beq_iff_eq] at hres ⊢
    split_ifs at hres ⊢ <;> simp_all
  · intro m hres
    unfold resolveExpected at hres
    unfold resolverSpec
    simp only [Bool.and_eq_true, Bool.not_eq_true', Bool.or_eq_true, beq_iff_eq] at hres ⊢
    split_ifs at hres ⊢ <;> simp_all
  · intro p hres
    unfold resolveExpected at hres
    unfold resolverSpec
    simp only [Bool.and_eq_true, Bool.not_eq_true', Bool.or_eq_true, beq_iff_eq] at hres ⊢
    split_ifs at hres ⊢ <;> simp_all

def bkC7 : Booking :=
  { baseBooking with
    bookingId := "BR3", requiresReservation := true, reservationPaid := true
    status := BookingStatus.RESERVED, remainingAmount := some 70
    remainingToken := none, paymentToken := some ("USDT") }

/-- Claim C7, counterexample: for a booking whose `remainingToken` is absent,
rule 2 does not yield the booking's remaining token - the resolver falls
back to the booking's payment token, which the claim as stated omits. -/
theorem C7_counterexample :
    bkC7.remainingToken = none ∧
    resolveExpected bkC7 true = .resolved .remaining (some 70) ("USDT") := by
  exact ⟨rfl, by decide⟩

/-- Witness for C7 at the fallback booking. -/
theorem C7_resolver_rules_witness :
    resolverSpec bkC7 true = some (.remaining, some 70, "USDT") :=
  (C7_resolver_rules bkC7 true).1 .remaining (some 70) ("USDT") (by decide)

end DedenMonad

namespace DedenMonad

def bkB1 : Booking :=
  { baseBooking with
    bookingId := "BK1", status := BookingStatus.PENDING
    paymentToken := some ("USDC"), paymentAmount := some 30 }

def bkB2 : Booking :=
  { baseBooking with
    bookingId := "BK2", status := BookingStatus.PENDING
    paymentToken := some ("USDC"), paymentAmount := some 30 }

def dbC1 : DB := ⟨[bkB1, bkB2], []⟩

def reqC1 (bid : String) : SubmitRequest :=
  ⟨some bid, some txA, some 10143, some ("USDC"), false⟩

/-- First submission: booking BK1 claims hash `txA`. -/
def stepA : SubmitResult := submitPayment dbC1 (reqC1 ("BK1"))

/-- Second submission: booking BK2 claims the same hash `txA` before the
first booking's background verification has committed. -/
def stepB : SubmitResult := submitPayment stepA.db (reqC1 ("BK2"))

/-- BK1's background verification commits. -/
def stepC : VerifyResult :=
  verifyPayment stepB.db ("BK1") txA 10143 false (fun _ => some receiptOK) txDet 0 10 3000

/-- BK2's background verification commits afterwards. -/
def stepD : VerifyResult :=
  verifyPayment stepC.db ("BK2") txA 10143 false (fun _ => some receiptOK) txDet 0 10 3000

set_option maxRecDepth 40000 in
/-- Claim C1, failing run: two submissions carrying the same transaction
hash for two different bookings are both accepted (the idempotency check
sees the hash unconsumed both times, since verification has not committed
yet), and both background verifications then confirm - even though the hash
is already consumed by BK1 when BK2's verification commits, nothing
re-checks it and the success update is keyed only by `bookingId`, with no
expected-pre-state condition.  The hash ends consumed by two (booking,
phase) pairs. -/
theorem C1_double_spend_run :
    stepA.outcome = SubmitOutcome.accepted ("full") ∧
    stepB.outcome = SubmitOutcome.accepted ("full") ∧
    stepC.outcome = some (Outcome.confirmed Phase.full) ∧
    checkTransactionUsed stepC.db txA = true ∧
    stepD.outcome = some (Outcome.confirmed Phase.full) ∧
    ((stepD.db.bookings.filter (txUsedBy txA)).map Booking.bookingId = ["BK1", "BK2"]) := by
  decide

/-- A second well-formed transaction hash. -/
def txB : String :=
  "0xbbbbbbbbbbbbbbbbbbbbbbbbbbbbbbbbbbbbbbbbbbbbbbbbbbbbbbbbbbbbbbbb"

/-- Claim C2 (amended): re-verification is a no-op exactly in the cases the
source's phase classification reaches a short-circuit: (i) a
reservation-classified call (requiresReservation, reservationPaid false,
isRemainingPayment false) on a booking in status RESERVED; (ii) a remaining
call with reservationPaid true and status CONFIRMED or remainingPaid true;
(iii) a full-classified call (requiresReservation false or reservationPaid
true, isRemainingPayment false) with status CONFIRMED.  In these cases the
run returns with the database unchanged and no notification dispatched.  A
booking with reservationPaid true re-invoked with isRemainingPayment false
is classified as a full payment and is not short-circuited unless its
status is CONFIRMED - see the counterexample. -/
theorem C2_idempotent_cases (db : DB) (bid txh : String) (cid : Nat) (isRem : Bool)
    (fetch : Nat → Option Receipt) (tx : TxDetails) (now : Nat) (maxR delay : Nat)
    (b : Booking) (hb : findBooking db bid = some b) (hm : 0 < maxR)
    (hcase :
      (b.requiresReservation = true ∧ b.reservationPaid = false ∧ isRem = false
          ∧ b.status = BookingStatus.RESERVED)
        ∨ (isRem = true ∧ b.reservationPaid = true
            ∧ (b.status = BookingStatus.CONFIRMED ∨ b.remainingPaid = true))
        ∨ ((b.requiresReservation = false ∨ b.reservationPaid = true) ∧ isRem = false
            ∧ b.status = BookingStatus.CONFIRMED)) :
    verifyPayment db bid txh cid isRem fetch tx now maxR delay
      = ⟨some .alreadyVerified, db, [], [db]⟩ := by
  have hres : ∃ ph, resolveExpected b isRem = .alreadyVerified ph := by
    rcases hcase with ⟨h1, h2, h3, h4⟩ | ⟨h1, h2, h3⟩ | ⟨h1, h2, h3⟩
    · exact ⟨.reservation, by simp [resolveExpected, h1, h2, h3, h4]⟩
    · refine ⟨.remaining, ?_⟩
      rcases h3 with h3 | h3 <;> simp [resolveExpected, h1, h2, h3]
    · refine ⟨.full, ?_⟩
      rcases h1 with h1 | h1 <;> simp [resolveExpected, h1, h2, h3]
  obtain ⟨ph, hres⟩ := hres
  exact verifyGo_done_first db bid txh cid isRem fetch tx now maxR delay
    .alreadyVerified db [] hm
    (verifyAttempt_already db bid txh cid isRem (fetch 0) tx now b ph hb hres)

/-- A booking whose reservation phase has succeeded: status RESERVED,
reservationPaid true, no full-payment amount locked. -/
def bkC2 : Booking :=
  { baseBooking with
    bookingId := "BR", requiresReservation := true, reservationPaid := true
    status := BookingStatus.RESERVED, reservationAmount := some 30
    reservationTxHash := some txA, remainingAmount := some 70
    paymentToken := some ("USDC"), paymentAmount := none }

def dbC2 : DB := ⟨[bkC2], []⟩

/-- Re-invoking verification for `bkC2` with isRemainingPayment = false. -/
def runC2 : VerifyResult :=
  verifyPayment dbC2 ("BR") txB 10143 false (fun _ => some receiptOK) txDet 0 10 3000

set_option maxRecDepth 40000 in
/-- Claim C2, counterexample: a booking already in the reservation phase's
terminal success state (status RESERVED, reservationPaid true) re-submitted
to verification with isRemainingPayment = false is classified as a full
payment, is not short-circuited, and is moved to FAILED: a booking state
change, refuting the no-op claim. -/
theorem C2_counterexample :
    bkC2.status = BookingStatus.RESERVED ∧ bkC2.reservationPaid = true ∧
    (findBooking runC2.db ("BR")).map Booking.status = some BookingStatus.FAILED ∧
    runC2.db ≠ dbC2 := by
  refine ⟨rfl, rfl, by decide, by decide⟩

def bkC2w : Booking :=
  { baseBooking with
    bookingId := "BC", status := BookingStatus.CONFIRMED
    paymentToken := some ("USDC"), paymentAmount := some 30 }

def dbC2w : DB := ⟨[bkC2w], []⟩

/-- Witness for C2 (amended) at a confirmed full-payment booking. -/
theorem C2_idempotent_cases_witness :
    verifyPayment dbC2w ("BC") txA 10143 false (fun _ => some receiptOK) txDet 0 10 3000
      = ⟨some .alreadyVerified, dbC2w, [], [dbC2w]⟩ :=
  C2_idempotent_cases dbC2w ("BC") txA 10143 false (fun _ => some receiptOK) txDet 0
    10 3000 bkC2w (by decide) (by decide) (by decide)

end DedenMonad

namespace DedenMonad

/-- Claim C3: whenever the selected treasury-recipient transfer log's value,
decoded from the log data as an unsigned integer in base units, differs from
the expected amount scaled by `10 ^ decimals` - by any nonzero amount -
verification ends with AmountMismatch, the booking is written to FAILED
(so never CONFIRMED and never RESERVED), no notification is dispatched, and
the loop stops after this single attempt. -/
theorem C3_exact_amount (db : DB) (bid txh : String) (cid : Nat) (isRem : Bool)
    (fetch : Nat → Option Receipt) (tx : TxDetails) (now maxR delay : Nat)
    (b : Booking) (phase : Phase) (amt : ℚ) (tok : String) (receipt : Receipt)
    (ch : ChainCfg) (ti : TokenInfo) (L : TxLog)
    (hb : findBooking db bid = some b)
    (hres : resolveExpected b isRem = .resolved phase (some amt) tok)
    (htok : tok.isEmpty = false) (hamt : amt ≠ 0)
    (hclient : hasPublicClient cid = true) (hm : 0 < maxR)
    (hfetch : fetch 0 = some receipt) (hstat : receipt.status = "success")
    (hcfg : chainConfig cid = some ch) (hti : ch.tokens tok = some ti)
    (hsel : selectTreasuryLog receipt.logs ti.address = some L)
    (hne : (L.data : ℚ) ≠ amt * ((10 ^ ti.decimals : ℕ) : ℚ)) :
    verifyPayment db bid txh cid isRem fetch tx now maxR delay
      = ⟨some (.failed .AmountMismatch),
          updateBookingStatus db bid BookingStatus.FAILED
            (reasonMessage .AmountMismatch),
          [],
          [updateBookingStatus db bid BookingStatus.FAILED
            (reasonMessage .AmountMismatch)]⟩
      ∧ findBooking (verifyPayment db bid txh cid isRem fetch tx now maxR delay).db bid
          = some { b with status := BookingStatus.FAILED } := by
  have hamtN : numTruthy (some amt) = true := by
    simp [numTruthy, bne_iff_ne, hamt]
  have hfilter : (transferLogFilter receipt.logs ti.address).isEmpty = false := by
    cases hfe : transferLogFilter receipt.logs ti.address with
    | nil =>
      exfalso
      unfold selectTreasuryLog at hsel
      rw [hfe] at hsel
      simp at hsel
    | cons x xs => simp
  have hne2 : ¬ ((L.data : ℚ) = parseUnits amt ti.decimals) := by
    rw [parseUnits_eq]
    exact hne
  have hmatch : matchTransferLog receipt.logs ti.address (parseUnits amt ti.decimals)
      = .amountMismatch L.data := by
    simp [matchTransferLog, hfilter, hsel, hne2]
  have hatt : verifyAttempt db bid txh cid isRem (fetch 0) tx now
      = .done (.failed .AmountMismatch)
          (updateBookingStatus db bid BookingStatus.FAILED
            (reasonMessage .AmountMismatch)) [] := by
    rw [hfetch,
      verifyAttempt_resolved db bid txh cid isRem (some receipt) tx now b phase
        (some amt) tok hb hres,
      afterResolve_postConfig db bid txh cid b phase (some amt) tok receipt tx now
        ch ti htok hamtN hclient hstat hcfg hti]
    simp only [Option.getD_some]
    rw [hmatch]
  have hrun := verifyGo_done_first db bid txh cid isRem fetch tx now maxR delay
    (.failed .AmountMismatch)
    (updateBookingStatus db bid BookingStatus.FAILED (reasonMessage .AmountMismatch))
    [] hm hatt
  refine ⟨hrun, ?_⟩
  rw [hrun]
  exact (updateBookingStatus_spec db bid BookingStatus.FAILED
    (reasonMessage .AmountMismatch) b hb).1

def bkC3 : Booking :=
  { baseBooking with
    bookingId := "B3", status := BookingStatus.PENDING
    paymentToken := some ("USDC"), paymentAmount := some 30 }

def dbC3 : DB := ⟨[bkC3], []⟩

/-- A treasury transfer log one base unit short of 30.00 USDC. -/
def logMismatch : TxLog :=
  { address := "0xf817257fed379853cde0fa4f97ab987181b1e5ea"
    topics := [TRANSFER_TOPIC, "0x0", topicToTreasury]
    data := 29999999 }

def receiptMismatch : Receipt :=
  { status := "success", blockNumber := 100, gasUsed := 21000, logs := [logMismatch] }

set_option maxRecDepth 40000 in
/-- Witness for C3: expected 30.00 USDC (30000000 base units), transferred
29999999 base units - the booking is FAILED, not CONFIRMED. -/
theorem C3_exact_amount_witness :
    verifyPayment dbC3 ("B3") txA 10143 false (fun _ => some receiptMismatch) txDet 0 10 3000
      = ⟨some (.failed .AmountMismatch),
          updateBookingStatus dbC3 ("B3") BookingStatus.FAILED
            (reasonMessage .AmountMismatch),
          [],
          [updateBookingStatus dbC3 ("B3") BookingStatus.FAILED
            (reasonMessage .AmountMismatch)]⟩
      ∧ findBooking (verifyPayment dbC3 ("B3") txA 10143 false
            (fun _ => some receiptMismatch) txDet 0 10 3000).db ("B3")
          = some { bkC3 with status := BookingStatus.FAILED } :=
  C3_exact_amount dbC3 ("B3") txA 10143 false (fun _ => some receiptMismatch) txDet 0 10
    3000 bkC3 .full 30 ("USDC") receiptMismatch
    ⟨"Monad Testnet", 10143, "MON", monadTestnetTokens⟩
    ⟨"0xf817257fed379853cDe0fa4F97AB987181B1E5Ea", 6, "USDC"⟩ logMismatch
    (by decide) (by decide) (by decide) (by norm_num) (by decide) (by decide)
    rfl rfl rfl rfl (by decide) (by simp only [logMismatch]; push_cast; norm_num)

/-- Claim C5: when the receipt fetch returns "not found" on every one of the
default 10 attempts (3000 ms spacing in the source, inert here), the run
terminates with the booking set to FAILED for VerificationTimeout, and every
one of the 9 earlier retry iterations leaves the database exactly as it
was - the only write happens on the final attempt. -/
theorem C5_exhaustion (db : DB) (bid txh : String) (cid : Nat) (isRem : Bool)
    (fetch : Nat → Option Receipt) (tx : TxDetails) (now delay : Nat)
    (b : Booking) (phase : Phase) (amt : Option ℚ) (tok : String)
    (hb : findBooking db bid = some b)
    (hres : resolveExpected b isRem = .resolved phase amt tok)
    (htok : tok.isEmpty = false) (hamt : numTruthy amt = true)
    (hclient : hasPublicClient cid = true)
    (hfetch : ∀ i, fetch i = none) :
    verifyPayment db bid txh cid isRem fetch tx now 10 delay
      = ⟨some (.failed .VerificationTimeout),
          updateBookingStatus db bid BookingStatus.FAILED
            (reasonMessage .VerificationTimeout),
          [],
          List.replicate 9 db
            ++ [updateBookingStatus db bid BookingStatus.FAILED
                  (reasonMessage .VerificationTimeout)]⟩ := by
  have hatt : ∀ i, verifyAttempt db bid txh cid isRem (fetch i) tx now
      = .retryNotFound := by
    intro i
    rw [hfetch i,
      verifyAttempt_resolved db bid txh cid isRem none tx now b phase amt tok hb hres]
    exact afterResolve_notFound db bid txh cid b phase amt tok tx now htok hamt hclient
  have h10 := verifyGo_all_notFound bid txh cid isRem fetch tx now 10 db hatt 10 0
    (by omega) (by omega)
  simpa [verifyPayment] using h10

def bkC5 : Booking :=
  { baseBooking with
    bookingId := "B5", status := BookingStatus.PENDING
    paymentToken := some ("USDC"), paymentAmount := some 30 }

def dbC5 : DB := ⟨[bkC5], []⟩

/-- Witness for C5 with a chain reader that never finds the receipt. -/
theorem C5_exhaustion_witness :
    verifyPayment dbC5 ("B5") txA 10143 false (fun _ => none) txDet 0 10 3000
      = ⟨some (.failed .VerificationTimeout),
          updateBookingStatus dbC5 ("B5") BookingStatus.FAILED
            (reasonMessage .VerificationTimeout),
          [],
          List.replicate 9 dbC5
            ++ [updateBookingStatus dbC5 ("B5") BookingStatus.FAILED
                  (reasonMessage .VerificationTimeout)]⟩ :=
  C5_exhaustion dbC5 ("B5") txA 10143 false (fun _ => none) txDet 0 3000 bkC5 .full
    (some 30) ("USDC") (by decide) (by decide) (by decide) (by decide) (by decide)
    (fun _ => rfl)

end DedenMonad

namespace DedenMonad

theorem afterResolve_tokenNotConfigured (db : DB) (bid txh : String) (cid : Nat)
    (b : Booking) (phase : Phase) (amt : Option ℚ) (tok : String) (receipt : Receipt)
    (tx : TxDetails) (now : Nat) (ch : ChainCfg)
    (htok : tok.isEmpty = false) (hamt : numTruthy amt = true)
    (hclient : hasPublicClient cid = true)
    (hstat : receipt.status = "success")
    (hcfg : chainConfig cid = some ch) (hti : ch.tokens tok = none) :
    afterResolve db bid txh cid b phase amt tok (some receipt) tx now
      = .thrown ("Token " ++ tok ++ " not configured for chain " ++ toString cid) := by
  simp [afterResolve, htok, hamt, hclient, hstat, hcfg, hti]

/-- Claim C6: with the booking read and the amount resolved, (i) a receipt
whose execution status is not success fails immediately with
TransactionReverted - for every log list and even with no chain or token
configuration hypothesis, since the status check precedes the configuration
lookups and all log inspection; (ii) a successful receipt none of whose logs
passes the token-address plus Transfer-signature filter fails with
NoTransferEvent; (iii) a successful receipt with filtered logs but none
addressed to the treasury fails with WrongRecipient.  In each case the
booking is written to FAILED and the loop performs exactly one iteration -
no retry. -/
theorem C6_matcher_failures (db : DB) (bid txh : String) (cid : Nat) (isRem : Bool)
    (fetch : Nat → Option Receipt) (tx : TxDetails) (now maxR delay : Nat)
    (b : Booking) (phase : Phase) (amt : Option ℚ) (tok : String) (receipt : Receipt)
    (ch : ChainCfg) (ti : TokenInfo)
    (hb : findBooking db bid = some b)
    (hres : resolveExpected b isRem = .resolved phase amt tok)
    (htok : tok.isEmpty = false) (hamt : numTruthy amt = true)
    (hclient : hasPublicClient cid = true) (hm : 0 < maxR)
    (hfetch : fetch 0 = some receipt) :
    (receipt.status ≠ "success" →
      verifyPayment db bid txh cid isRem fetch tx now maxR delay
        = ⟨some (.failed .TransactionReverted),
            updateBookingStatus db bid BookingStatus.FAILED
              (reasonMessage .TransactionReverted),
            [],
            [updateBookingStatus db bid BookingStatus.FAILED
              (reasonMessage .TransactionReverted)]⟩) ∧
    (receipt.status = "success" → chainConfig cid = some ch → ch.tokens tok = some ti →
      transferLogFilter receipt.logs ti.address = [] →
      verifyPayment db bid txh cid isRem fetch tx now maxR delay
        = ⟨some (.failed .NoTransferEvent),
            updateBookingStatus db bid BookingStatus.FAILED
              (reasonMessage .NoTransferEvent),
            [],
            [updateBookingStatus db bid BookingStatus.FAILED
              (reasonMessage .NoTransferEvent)]⟩) ∧
    (receipt.status = "success" → chainConfig cid = some ch → ch.tokens tok = some ti →
      transferLogFilter receipt.logs ti.address ≠ [] →
      selectTreasuryLog receipt.logs ti.address = none →
      verifyPayment db bid txh cid isRem fetch tx now maxR delay
        = ⟨some (.failed .WrongRecipient),
            updateBookingStatus db bid BookingStatus.FAILED
              (reasonMessage .WrongRecipient),
            [],
            [updateBookingStatus db bid BookingStatus.FAILED
              (reasonMessage .WrongRecipient)]⟩) := by
  refine ⟨?_, ?_, ?_⟩
  · intro hstat
    refine verifyGo_done_first db bid txh cid isRem fetch tx now maxR delay _ _ _ hm ?_
    rw [hfetch,
      verifyAttempt_resolved db bid txh cid isRem (some receipt) tx now b phase amt tok
        hb hres]
    exact afterResolve_reverted db bid txh cid b phase amt tok receipt tx now htok hamt
      hclient hstat
  · intro hstat hcfg hti2 hfil
    have hmatch : matchTransferLog receipt.logs ti.address
        (parseUnits (amt.getD 0) ti.decimals) = .noTransferEvent := by
      simp [matchTransferLog, hfil]
    refine verifyGo_done_first db bid txh cid isRem fetch tx now maxR delay _ _ _ hm ?_
    rw [hfetch,
      verifyAttempt_resolved db bid txh cid isRem (some receipt) tx now b phase amt tok
        hb hres,
      afterResolve_postConfig db bid txh cid b phase amt tok receipt tx now ch ti htok
        hamt hclient hstat hcfg hti2,
      hmatch]
  · intro hstat hcfg hti2 hfil hsel
    have hfil2 : (transferLogFilter receipt.logs ti.address).isEmpty = false := by
      cases hfe : transferLogFilter receipt.logs ti.address with
      | nil => exact absurd hfe hfil
      | cons x xs => simp
    have hmatch : matchTransferLog receipt.logs ti.address
        (parseUnits (amt.getD 0) ti.decimals) = .wrongRecipient := by
      simp [matchTransferLog, hfil2, hsel]
    refine verifyGo_done_first db bid txh cid isRem fetch tx now maxR delay _ _ _ hm ?_
    rw [hfetch,
      verifyAttempt_resolved db bid txh cid isRem (some receipt) tx now b phase amt tok
        hb hres,
      afterResolve_postConfig db bid txh cid b phase amt tok receipt tx now ch ti htok
        hamt hclient hstat hcfg hti2,
      hmatch]

/-- A reverted receipt carrying a perfectly matching transfer log. -/
def receiptReverted : Receipt :=
  { status := "reverted", blockNumber := 100, gasUsed := 21000, logs := [logTreasury30] }

def bkC6 : Booking :=
  { baseBooking with
    bookingId := "B6", status := BookingStatus.PENDING
    paymentToken := some ("USDC"), paymentAmount := some 30 }

def dbC6 : DB := ⟨[bkC6], []⟩

/-- Witness for C6: a reverted transaction fails with TransactionReverted
even though its logs contain a valid transfer to the treasury. -/
theorem C6_matcher_failures_witness :
    verifyPayment dbC6 ("B6") txA 10143 false (fun _ => some receiptReverted) txDet 0 10 3000
      = ⟨some (.failed .TransactionReverted),
          updateBookingStatus dbC6 ("B6") BookingStatus.FAILED
            (reasonMessage .TransactionReverted),
          [],
          [updateBookingStatus dbC6 ("B6") BookingStatus.FAILED
            (reasonMessage .TransactionReverted)]⟩ :=
  (C6_matcher_failures dbC6 ("B6") txA 10143 false (fun _ => some receiptReverted) txDet
      0 10 3000 bkC6 .full (some 30) ("USDC") receiptReverted
      ⟨"Monad Testnet", 10143, "MON", monadTestnetTokens⟩
      ⟨"0xf817257fed379853cDe0fa4F97AB987181B1E5Ea", 6, "USDC"⟩
      (by decide) (by decide) (by decide) (by decide) (by decide) (by decide) rfl).1
    (by decide)

/-- Claim C9 (amended): an unconfigured chain id, or an unconfigured token
for the booking's resolved token symbol, makes the verification attempt
throw an error message naming the offending chain or token - but the throw
is caught by the loop's generic retry handler and retried like a transient
error: the booking is set to FAILED carrying that specific reason only after
the full retry budget of maxRetries attempts, with the database untouched by
every earlier attempt. -/
theorem C9_config_error_retried (db : DB) (bid txh : String) (cid : Nat) (isRem : Bool)
    (fetch : Nat → Option Receipt) (rcpts : Nat → Receipt) (tx : TxDetails)
    (now maxR delay : Nat) (b : Booking) (phase : Phase) (amt : Option ℚ) (tok : String)
    (ch : ChainCfg)
    (hb : findBooking db bid = some b)
    (hres : resolveExpected b isRem = .resolved phase amt tok)
    (htok : tok.isEmpty = false) (hamt : numTruthy amt = true) (hm : 0 < maxR) :
    (hasPublicClient cid = false →
      verifyPayment db bid txh cid isRem fetch tx now maxR delay
        = ⟨some (.failed (.thrownError
              ("No client configured for chain " ++ toString cid))),
            updateBookingStatus db bid BookingStatus.FAILED
              ("No client configured for chain " ++ toString cid),
            [],
            List.replicate (maxR - 1) db
              ++ [updateBookingStatus db bid BookingStatus.FAILED
                    ("No client configured for chain " ++ toString cid)]⟩) ∧
    (hasPublicClient cid = true →
      (∀ i, fetch i = some (rcpts i)) → (∀ i, (rcpts i).status = "success") →
      chainConfig cid = some ch → ch.tokens tok = none →
      verifyPayment db bid txh cid isRem fetch tx now maxR delay
        = ⟨some (.failed (.thrownError
              ("Token " ++ tok ++ " not configured for chain " ++ toString cid))),
            updateBookingStatus db bid BookingStatus.FAILED
              ("Token " ++ tok ++ " not configured for chain " ++ toString cid),
            [],
            List.replicate (maxR - 1) db
              ++ [updateBookingStatus db bid BookingStatus.FAILED
                    ("Token " ++ tok ++ " not configured for chain "
                      ++ toString cid)]⟩) := by
  constructor
  · intro hclient
    have hatt : ∀ i, verifyAttempt db bid txh cid isRem (fetch i) tx now
        = .thrown ("No client configured for chain " ++ toString cid) := by
      intro i
      rw [verifyAttempt_resolved db bid txh cid isRem (fetch i) tx now b phase amt tok
        hb hres]
      exact afterResolve_noClient db bid txh cid b phase amt tok (fetch i) tx now htok
        hamt hclient
    have h := verifyGo_all_thrown bid txh cid isRem fetch tx now maxR db
      ("No client configured for chain " ++ toString cid) hatt maxR 0 hm (by omega)
    simpa [verifyPayment] using h
  · intro hclient hfetch hsucc hcfg hti
    have hatt : ∀ i, verifyAttempt db bid txh cid isRem (fetch i) tx now
        = .thrown ("Token " ++ tok ++ " not configured for chain " ++ toString cid) := by
      intro i
      rw [hfetch i,
        verifyAttempt_resolved db bid txh cid isRem (some (rcpts i)) tx now b phase amt
          tok hb hres]
      exact afterResolve_tokenNotConfigured db bid txh cid b phase amt tok (rcpts i) tx
        now ch htok hamt hclient (hsucc i) hcfg hti
    have h := verifyGo_all_thrown bid txh cid isRem fetch tx now maxR db
      ("Token " ++ tok ++ " not configured for chain " ++ toString cid) hatt maxR 0 hm
      (by omega)
    simpa [verifyPayment] using h

def bkC9 : Booking :=
  { baseBooking with
    bookingId := "B9", status := BookingStatus.PENDING
    paymentToken := some ("USDC"), paymentAmount := some 30 }

def dbC9 : DB := ⟨[bkC9], []⟩

/-- Verification of a valid booking against the unconfigured chain 9999. -/
def runC9 : VerifyResult :=
  verifyPayment dbC9 ("B9") txA 9999 false (fun _ => none) txDet 0 10 3000

set_option maxRecDepth 40000 in
/-- Claim C9, counterexample: the unconfigured-chain error is retried - the
run performs all 10 loop iterations (history length 10) instead of failing
on the first attempt, and only then writes FAILED with the specific
reason. -/
theorem C9_counterexample :
    runC9.history.length = 10 ∧
    runC9.outcome = some (.failed (.thrownError ("No client configured for chain 9999"))) ∧
    runC9.history.take 9 = List.replicate 9 dbC9 ∧
    (findBooking runC9.db ("B9")).map Booking.status = some BookingStatus.FAILED := by
  refine ⟨by decide, by decide, by decide, by decide⟩

/-- Witness for C9 (amended) on the unconfigured chain 9999. -/
theorem C9_config_error_retried_witness :
    verifyPayment dbC9 ("B9") txA 9999 false (fun _ => none) txDet 0 10 3000
      = ⟨some (.failed (.thrownError ("No client configured for chain " ++ toString 9999))),
          updateBookingStatus dbC9 ("B9") BookingStatus.FAILED
            ("No client configured for chain " ++ toString 9999),
          [],
          List.replicate 9 dbC9
            ++ [updateBookingStatus dbC9 ("B9") BookingStatus.FAILED
                  ("No client configured for chain " ++ toString 9999)]⟩ :=
  (C9_config_error_retried dbC9 ("B9") txA 9999 false (fun _ => none)
      (fun _ => receiptOK) txDet 0 10 3000 bkC9 .full (some 30) ("USDC")
      ⟨"Monad Testnet", 10143, "MON", monadTestnetTokens⟩
      (by decide) (by decide) (by decide) (by decide) (by decide)).1 (by decide)

end DedenMonad

namespace DedenMonad

theorem submitPayment_guard_reject (db : DB) (bid h tok : String) (cid : Nat)
    (isRem : Bool) (b : Booking) (r : SubmitOutcome)
    (hbid : bid.isEmpty = false) (hcid : cid ≠ 0) (htok : tok.isEmpty = false)
    (hh : isValidTxHash h = true)
    (hused : checkTransactionUsed db h = false)
    (hb : findBooking db bid = some b)
    (hg : guardPhase b isRem tok = some r) :
    submitPayment db ⟨some bid, some h, some cid, some tok, isRem⟩ = ⟨r, db, false⟩ := by
  have hhne := isValidTxHash_ne_empty h hh
  simp [submitPayment, strTruthy, natTruthy, hbid, hcid, htok, hh, hused, hhne, hb, hg]

/-- Claim C4 (amended): with the basic validation passed and the hash not
yet consumed, the submission handler rejects - before scheduling any
verification and hence before any chain access, with the database
untouched - every submission whose phase's required current status does not
hold: reservation-phase submissions require status PENDING and full-payment
submissions require status PENDING, answering StatusConflict (HTTP 409);
remaining-phase submissions require status RESERVED, answering 409 when
`reservationPaid` is true, while a remaining-phase submission with
`reservationPaid` false is rejected first by the phase-order check with
HTTP 400, regardless of transaction validity and before the status is even
consulted. -/
theorem C4_status_guards (db : DB) (bid h tok : String) (cid : Nat) (b : Booking)
    (hbid : bid.isEmpty = false) (hcid : cid ≠ 0) (htok : tok.isEmpty = false)
    (hh : isValidTxHash h = true)
    (hused : checkTransactionUsed db h = false)
    (hb : findBooking db bid = some b) :
    (b.requiresReservation = true → b.reservationPaid = false →
      submitPayment db ⟨some bid, some h, some cid, some tok, true⟩
        = ⟨.reservationNotPaid, db, false⟩ ∧ httpStatus .reservationNotPaid = 400) ∧
    (b.requiresReservation = true → b.reservationPaid = true →
      b.status ≠ BookingStatus.RESERVED →
      submitPayment db ⟨some bid, some h, some cid, some tok, true⟩
        = ⟨.statusConflict b.status, db, false⟩
        ∧ httpStatus (.statusConflict b.status) = 409) ∧
    (b.requiresReservation = true → b.status ≠ BookingStatus.PENDING →
      submitPayment db ⟨some bid, some h, some cid, some tok, false⟩
        = ⟨.statusConflict b.status, db, false⟩
        ∧ httpStatus (.statusConflict b.status) = 409) ∧
    (b.requiresReservation = false → b.status ≠ BookingStatus.PENDING →
      submitPayment db ⟨some bid, some h, some cid, some tok, false⟩
        = ⟨.statusConflict b.status, db, false⟩
        ∧ httpStatus (.statusConflict b.status) = 409) := by
  refine ⟨?_, ?_, ?_, ?_⟩
  · intro hrr hrp
    refine ⟨submitPayment_guard_reject db bid h tok cid true b _ hbid hcid htok hh
      hused hb ?_, rfl⟩
    simp [guardPhase, hrr, hrp]
  · intro hrr hrp hst
    refine ⟨submitPayment_guard_reject db bid h tok cid true b _ hbid hcid htok hh
      hused hb ?_, rfl⟩
    simp [guardPhase, hrr, hrp, bne_iff_ne, hst]
  · intro hrr hst
    refine ⟨submitPayment_guard_reject db bid h tok cid false b _ hbid hcid htok hh
      hused hb ?_, rfl⟩
    simp [guardPhase, hrr, bne_iff_ne, hst]
  · intro hrr hst
    refine ⟨submitPayment_guard_reject db bid h tok cid false b _ hbid hcid htok hh
      hused hb ?_, rfl⟩
    simp [guardPhase, hrr, bne_iff_ne, hst]

/-- A reservation booking still PENDING, reservation unpaid. -/
def bkC4 : Booking :=
  { baseBooking with
    bookingId := "BR2", requiresReservation := true, reservationPaid := false
    status := BookingStatus.PENDING, reservationAmount := some 30
    remainingAmount := some 70 }

def dbC4 : DB := ⟨[bkC4], []⟩

/-- A remaining-phase submission for `bkC4` (reservation not paid). -/
def runC4 : SubmitResult :=
  submitPayment dbC4 ⟨some ("BR2"), some txA, some 10143, some ("USDC"), true⟩

/-- Claim C4, counterexample: a remaining-phase submission for a booking
whose required current status (RESERVED) does not hold is answered with
HTTP 400 (the reservation-not-paid rejection), not with StatusConflict 409
as the claim states, because the `reservationPaid` check runs before the
status check. -/
theorem C4_counterexample :
    bkC4.status ≠ BookingStatus.RESERVED ∧
    runC4.outcome = .reservationNotPaid ∧
    httpStatus runC4.outcome = 400 ∧
    httpStatus runC4.outcome ≠ 409 := by
  refine ⟨by decide, by decide, by decide, by decide⟩

/-- A full-payment booking already RESERVED (spec section 8's status-guard
example). -/
def bkC4w : Booking :=
  { baseBooking with
    bookingId := "BF", requiresReservation := false
    status := BookingStatus.RESERVED
    paymentToken := some ("USDC"), paymentAmount := some 30 }

def dbC4w : DB := ⟨[bkC4w], []⟩

/-- Witness for C4 (amended): a full-payment submission for a RESERVED
booking is rejected with StatusConflict 409, database untouched, no
verification scheduled. -/
theorem C4_status_guards_witness :
    submitPayment dbC4w ⟨some ("BF"), some txA, some 10143, some ("USDC"), false⟩
      = ⟨.statusConflict BookingStatus.RESERVED, dbC4w, false⟩
      ∧ httpStatus (.statusConflict BookingStatus.RESERVED) = 409 :=
  (C4_status_guards dbC4w ("BF") txA ("USDC") 10143 bkC4w (by decide) (by decide)
      (by decide) (by decide) (by decide) (by decide)).2.2.2 (by decide) (by decide)

end DedenMonad
